import Mathlib

/-!
Verification development for the CxC_Caregiver backend task-queue pipeline
(`backend/main.py`): the task generator (`generate_tasks_from_sources`),
the relevance filter (`get_tasks` / `is_relevant`), and the task lifecycle
(`accept_task` / `dismiss_task`).

The Python code is shallowly embedded: module-level mutable state
(`TASKS`, `PROCESSED_IDS`, `IS_SCANNING`) becomes an explicit state record
threaded through the operations; external adapters (Gmail, Telegram,
Calendar) and the LLM classifier are environment parameters, modelled as
total functions per their documented contracts (`analyze_email_intent`
always returns the four keys with defaults, `extract_scheduling_info` may
omit fields, `get_telegram_updates` returns a list of update dicts);
Python exceptions raised by adapters are modelled with `Except`.
Python string primitives (`lower`, `strip`, `split`, substring `in`,
`replace`) are re-implemented over `List Char` so that concrete runs
reduce inside the kernel.
-/

namespace CareLink

/-- ASCII lowercasing of one character, the behavior of Python `str.lower`
on the ASCII range. -/
def lowerChar (c : Char) : Char :=
  if 65 ≤ c.toNat ∧ c.toNat ≤ 90 then Char.ofNat (c.toNat + 32) else c

/-- Python `s.lower()`. -/
def strLower (s : String) : String := String.mk (s.data.map lowerChar)

/-- Whitespace test used by Python `str.strip()` (ASCII whitespace). -/
def isSpaceChar (c : Char) : Bool := c == ' ' || c == '\t' || c == '\n' || c == '\r'

/-- Python `s.strip()`. -/
def strTrim (s : String) : String :=
  String.mk (((s.data.dropWhile isSpaceChar).reverse.dropWhile isSpaceChar).reverse)

/-- Boolean test that the first list is an initial segment of the second. -/
def listPrefixB : List Char → List Char → Bool
  | [], _ => true
  | _ :: _, [] => false
  | a :: as, b :: bs => a == b && listPrefixB as bs

/-- Boolean test that the first list occurs contiguously inside the second. -/
def listInfixB : List Char → List Char → Bool
  | n, [] => listPrefixB n []
  | n, b :: bs => listPrefixB n (b :: bs) || listInfixB n bs

/-- Python substring membership `needle in hay`. -/
def substrB (needle hay : String) : Bool := listInfixB needle.data hay.data

/-- Python `s.split(c)` for a one-character separator, on the character list. -/
def splitCharL (c : Char) : List Char → List (List Char)
  | [] => [[]]
  | a :: as =>
    if a == c then [] :: splitCharL c as
    else
      match splitCharL c as with
      | [] => [[a]]
      | g :: gs => (a :: g) :: gs

/-- Python `s.split(c)` for a one-character separator. -/
def splitChar (c : Char) (s : String) : List String := (splitCharL c s.data).map String.mk

/-- Python `s.replace(">", "")`: remove every occurrence of one character. -/
def removeChar (c : Char) (s : String) : String :=
  String.mk (s.data.filter (fun a => !(a == c)))

/-- Python `s.strip(">")`: drop the character from both ends. -/
def stripChar (c : Char) (s : String) : String :=
  String.mk (((s.data.dropWhile (fun a => a == c)).reverse.dropWhile (fun a => a == c)).reverse)

/-- Python truthiness of an `Optional[str]`: `None` and the empty string are
falsy, everything else truthy. -/
def truthyOpt : Option String → Bool
  | none => false
  | some s => !(s == "")

/-- Snapshot of one email as returned by `GmailReader.get_email_by_id`
(the fields the task pipeline reads). -/
structure Email where
  sender : String
  subject : String
  body : String
deriving DecidableEq

/-- A drafted reply, the `{subject, body}` dictionary returned by
`GeminiReplyGenerator.generate_reply`. -/
structure Reply where
  subject : String
  body : String
deriving DecidableEq

/-- Result of `GeminiReplyGenerator.analyze_email_intent`; the Python
function always returns all four keys (defaults are filled in before
parsing), so the fields are total. -/
structure Analysis where
  intent : String
  urgency : String
  requires_reply : Bool
  reasoning : String
deriving DecidableEq

/-- Result of `GeminiReplyGenerator.extract_scheduling_info`; on failure the
Python function returns only `{"has_proposal": False}`, so the other keys
are optional. -/
structure SchedInfo where
  has_proposal : Bool
  datetime_iso : Option String
  duration_minutes : Option Nat
deriving DecidableEq

/-- The `message` object inside one Telegram update: `chat.id` is read with
mandatory indexing, `text` and `from.first_name` with `.get` defaults. -/
structure TgMessage where
  chat_id : Int
  text : Option String
  first_name : Option String
deriving DecidableEq

/-- One Telegram update as returned by `get_telegram_updates`:
`update_id` is read with mandatory indexing; the `message` key may be
absent (`none`). -/
structure TgUpdate where
  update_id : Nat
  message : Option TgMessage
deriving DecidableEq

/-- The `payload` dictionary of a Task, with one optional field per key any
branch of the code stores or reads (`email_reply` tasks use the first
three, `telegram_reply` the next three, `appointment_scheduler` the last
two). -/
structure Payload where
  email_id : Option String
  draft_reply : Option Reply
  original_email : Option Email
  chat_id : Option Int
  text : Option String
  sender : Option String
  doctor : Option String
  reason : Option String
deriving DecidableEq

/-- The payload dictionary with no keys, the `{}` default of
`task.payload or {}`. -/
def Payload.empty : Payload :=
  { email_id := none, draft_reply := none, original_email := none, chat_id := none
    text := none, sender := none, doctor := none, reason := none }

/-- The `Task` pydantic model of `backend/main.py`. Timestamps are modelled
as natural numbers. -/
structure Task where
  id : String
  type : String
  title : String
  description : String
  urgency : String
  status : String
  payload : Option Payload
  created_at : Nat
deriving DecidableEq

/-- Construction of a `Task` without passing `status` or `created_at`, as
every creation site in the code does. The Python field declaration
`created_at: str = str(datetime.now())` evaluates its default expression
once, when the class body runs; every construction that omits the field
reuses that single value, here `classDefTime`. -/
def Task.make (classDefTime : Nat) (id ty title description urgency : String)
    (payload : Option Payload) : Task :=
  { id := id, type := ty, title := title, description := description,
    urgency := urgency, status := "pending", payload := payload,
    created_at := classDefTime }

/-- Variant of `Task.make` as seen from a creation site at wall-clock instant `now`:
the Python runtime has the current time available, but the class-level
default ignores it and reuses the value captured at class definition. -/
def Task.makeAt (classDefTime now : Nat) (id ty title description urgency : String)
    (payload : Option Payload) : Task :=
  Task.make classDefTime id ty title description urgency payload

/-- The module-level mutable state of `backend/main.py`: the task store
`TASKS`, the deduplication ledger `PROCESSED_IDS` (a set, modelled as a
list used only through membership), the `IS_SCANNING` flag, and a counter
supplying fresh `uuid4` draws. -/
structure St where
  tasks : List Task
  processed : List String
  isScanning : Bool
  counter : Nat
deriving DecidableEq

/-- The state at process start: `TASKS = []`, `PROCESSED_IDS = set()`,
`IS_SCANNING = False`. -/
def initState : St := { tasks := [], processed := [], isScanning := false, counter := 0 }

/-- The external world of one generator scan: the class-definition
timestamp, a uuid supply, and the adapter and classifier functions, all
modelled as pure total functions (deterministic test doubles of the
documented contracts). `parseIso` is `datetime.fromisoformat` returning
`none` where Python raises; `formatTime` is `strftime`; times are minutes
as natural numbers. -/
structure Env where
  classDefTime : Nat
  uuid : Nat → String
  listUnread : List String
  getEmailById : String → Option Email
  analyzeIntent : String → Analysis
  extractScheduling : String → SchedInfo
  parseIso : String → Option Nat
  formatTime : Nat → String
  isFree : Nat → Nat → Bool
  generateReply : String → String → String → String → Reply
  telegramUpdates : List TgUpdate

/-- The automated-sender patterns of the pre-filter (line 567). -/
def automated_senders : List String :=
  ["noreply@", "no-reply@", "mailer-daemon@", "postmaster@", "notifications@",
   "marketing@", "promo@", "donotreply@"]

/-- The promotional and security-noise phrases of the pre-filter (line 573). -/
def spam_keywords : List String :=
  ["unsubscribe", "newsletter", "limited time offer", "click here to verify",
   "verify your email", "confirm your account", "reset your password",
   "sign-in attempt", "two-factor", "2fa", "otp", "verification code"]

/-- The availability-context string built from the scheduling extraction
(lines 580-607): inside the guarded branch, parse the proposed instant,
check the calendar, and phrase a confirm or decline hint; a parse failure
raises inside the inner `try` and leaves the context empty. -/
def availabilityContext (env : Env) (sched_info : SchedInfo) : String :=
  if sched_info.has_proposal &&
      (match sched_info.datetime_iso with
       | some iso => !(iso == "")
       | none => false) then
    match env.parseIso ((sched_info.datetime_iso).getD "") with
    | none => ""
    | some start =>
      let duration := (sched_info.duration_minutes).getD 120
      let endT := start + duration
      let is_free := env.isFree start endT
      let proposed_time := env.formatTime start
      if is_free then
        "CALENDAR CHECK: The proposed time (" ++ proposed_time ++
          ") is AVAILABLE. You should CONFIRM this appointment. Say the time works and you'll be there."
      else
        "CALENDAR CHECK: The proposed time (" ++ proposed_time ++
          ") is NOT available — there is a conflict. " ++
          "You should DECLINE this specific time and ask the sender for a different day or time. " ++
          "Suggest they propose another slot, or offer morning/afternoon of another day this week."
  else ""

/-- Processing of one unread email id in the scan loop (lines 553-636):
skip ids already in the ledger; skip silently when the fetch resolves to
nothing; mark-and-skip automated senders, noise phrases, and messages the
classifier deems unactionable; otherwise draft a reply and append an
`email_reply` task, recording the id. -/
def processEmailItem (env : Env) (s : St) (msg_id : String) : St :=
  if msg_id ∈ s.processed then s
  else
    match env.getEmailById msg_id with
    | none => s
    | some email =>
      let content := strLower (email.subject ++ " " ++ email.body)
      let senderL := strLower email.sender
      if automated_senders.any (fun ns => substrB ns senderL) then
        { s with processed := msg_id :: s.processed }
      else if spam_keywords.any (fun sp => substrB sp content) then
        { s with processed := msg_id :: s.processed }
      else
        let analysis := env.analyzeIntent email.body
        let schedCond := substrB "appoint" content || substrB "schedule" content ||
          substrB "meet" content || substrB "time" content || substrB "date" content ||
          analysis.intent == "appointment"
        let sched_info :=
          if schedCond then env.extractScheduling email.body
          else { has_proposal := false, datetime_iso := none, duration_minutes := none }
        let availability_context := availabilityContext env sched_info
        if !analysis.requires_reply && analysis.urgency == "low" && !sched_info.has_proposal then
          { s with processed := msg_id :: s.processed }
        else
          let reply := env.generateReply email.subject email.body email.sender availability_context
          let task := Task.make env.classDefTime (env.uuid s.counter) "email_reply"
            ("Reply to " ++ email.sender) ("Regarding: " ++ email.subject)
            analysis.urgency
            (some { Payload.empty with
                      email_id := some msg_id,
                      draft_reply := some reply,
                      original_email := some email })
          { s with tasks := s.tasks ++ [task],
                   processed := msg_id :: s.processed,
                   counter := s.counter + 1 }

/-- Processing of one Telegram update in the scan loop (lines 643-666):
skip if the namespaced key is in the ledger; create a `telegram_reply`
task and record the key only when the update carries a `message`. -/
def processTgItem (env : Env) (s : St) (u : TgUpdate) : St :=
  let key := "tg_" ++ toString u.update_id
  if key ∈ s.processed then s
  else
    match u.message with
    | none => s
    | some m =>
      let text := (m.text).getD ""
      let senderName := (m.first_name).getD "Unknown"
      let task := Task.make env.classDefTime (env.uuid s.counter) "telegram_reply"
        ("Message from " ++ senderName)
        ("Telegram: " ++ String.mk (text.data.take 50) ++ "...")
        "medium"
        (some { Payload.empty with
                  chat_id := some m.chat_id,
                  text := some text,
                  sender := some senderName })
      { s with tasks := s.tasks ++ [task],
               processed := key :: s.processed,
               counter := s.counter + 1 }

/-- The email half of the scan: the loop over the message ids returned by
the list call. -/
def processEmails (env : Env) (s : St) : St :=
  env.listUnread.foldl (processEmailItem env) s

/-- The Telegram half of the scan: the loop over `get_telegram_updates()`. -/
def processTelegram (env : Env) (s : St) : St :=
  env.telegramUpdates.foldl (processTgItem env) s

/-- The function `generate_tasks_from_sources` (lines 540-670): return unchanged when a
scan is already in flight, otherwise set the flag, process both sources,
and clear the flag. Adapter and classifier calls are total here, so the
per-source exception handlers never fire. -/
def generate_tasks_from_sources (env : Env) (s : St) : St :=
  if s.isScanning then s
  else
    let s1 : St := { s with isScanning := true }
    let s2 := processTelegram env (processEmails env s1)
    { s2 with isScanning := false }

/-- The query parameters of the `GET /tasks` endpoint. -/
structure TaskQuery where
  patient_name : Option String
  doctor_emails : Option String
  doctor_names : Option String
  contact_emails : Option String

/-- One known-contact collection block of `get_tasks` (lines 698-712):
when the parameter is truthy, split at commas, strip and lowercase each
entry, and keep the nonempty ones. -/
def splitClean : Option String → List String
  | none => []
  | some s =>
    if s == "" then []
    else ((splitChar ',' s).map (fun e => strLower (strTrim e))).filter (fun e => !(e == ""))

/-- The known-contact email set of `get_tasks`: doctor emails then contact
emails (a set; only membership is used). -/
def knownEmails (q : TaskQuery) : List String :=
  splitClean q.doctor_emails ++ splitClean q.contact_emails

/-- The known-name set of `get_tasks`: doctor names then, when truthy, the
stripped lowercased patient name. -/
def knownNames (q : TaskQuery) : List String :=
  splitClean q.doctor_names ++
    (match q.patient_name with
     | some pn => if !(pn == "") then [strLower (strTrim pn)] else []
     | none => [])

/-- Bare-address extraction of `is_relevant` step 1 (lines 729-730):
`sender.split("<")[1].replace(">", "").strip()` when the sender field
contains `"<"`. -/
def extractAddr (sender_email : String) : String :=
  if substrB "<" sender_email then
    strTrim (removeChar '>' ((splitChar '<' sender_email).getD 1 ""))
  else sender_email

/-- The `is_relevant` closure of `get_tasks` (lines 716-776), taken as a
function of the captured query context. Matching reads only the original
source content in the payload, never the drafted reply. -/
def is_relevant (q : TaskQuery) (t : Task) : Bool :=
  let known_emails := knownEmails q
  let known_names := knownNames q
  let payload := (t.payload).getD Payload.empty
  if t.type == "email_reply" then
    let original := payload.original_email
    let senderL := strLower (match original with | some e => e.sender | none => "")
    let subjectL := strLower (match original with | some e => e.subject | none => "")
    let bodyL := strLower (match original with | some e => e.body | none => "")
    let sender_email := extractAddr senderL
    if known_emails.contains sender_email then true
    else if known_names.any (fun name =>
        !(name == "") && decide (3 ≤ name.length) &&
          (substrB name senderL || substrB name subjectL)) then true
    else if truthyOpt q.patient_name then
      let pn := strLower (strTrim ((q.patient_name).getD ""))
      decide (3 ≤ pn.length) && (substrB pn subjectL || substrB pn bodyL)
    else false
  else if t.type == "telegram_reply" then
    let text := strLower ((payload.text).getD "")
    let tg_sender := strLower ((payload.sender).getD "")
    if truthyOpt q.patient_name &&
        substrB (strLower (strTrim ((q.patient_name).getD ""))) text then true
    else known_names.any (fun name => !(name == "") && substrB name tg_sender)
  else if t.type == "appointment_scheduler" then
    let doctor := strLower ((payload.doctor).getD "")
    known_names.any (fun name => !(name == "") && substrB name doctor)
  else if t.type == "prescription_refill" then
    truthyOpt q.patient_name
  else if t.type == "health_alert" then
    truthyOpt q.patient_name
  else false

/-- The body of the `GET /tasks` handler (lines 676-778) as a function of
the task store: select pending tasks, return the empty list when no
patient scope was supplied, otherwise keep the relevant ones. -/
def get_tasks (q : TaskQuery) (tasks : List Task) : List Task :=
  let pending := tasks.filter (fun t => t.status == "pending")
  if !truthyOpt q.patient_name && !truthyOpt q.doctor_emails && !truthyOpt q.doctor_names then
    []
  else
    pending.filter (is_relevant q)

/-- The `GET /tasks` handler against the module state: the handler body
assigns none of `TASKS`, `PROCESSED_IDS`, `IS_SCANNING` (the background
scan it schedules runs after the response, as a separate invocation of
`generate_tasks_from_sources`), so the state component is returned
unchanged. -/
def listTasksState (q : TaskQuery) (s : St) : List Task × St :=
  (get_tasks q s.tasks, s)

/-- Overwrite of `draft_reply` in a task payload, leaving every other field
alone; used to state that the relevance verdict ignores drafted text. -/
def setDraft (r : Option Reply) (t : Task) : Task :=
  { t with payload := (t.payload).map (fun p => { p with draft_reply := r }) }

/-- The adapters reachable from `accept_task`: `send_email`, Gmail
`mark_as_read`, Calendar `add_event`, plus the default follow-up slot
(`datetime.now().replace(hour=10, ...) + timedelta(weeks=2)`) as an
environment-supplied instant. Raised exceptions are `Except.error`. -/
structure AcceptEnv where
  sendEmail : List String → String → String → Except String Unit
  markRead : Option String → Except String Bool
  addEvent : String → Nat → Nat → String → Except String String
  defaultSlot : Nat

/-- Outcome of an accept or dismiss call as seen by the HTTP caller:
success, 404 for an unknown id, or a 500 carrying the exception text. -/
inductive ApiResult where
  | success
  | notFound
  | serverError (msg : String)
deriving DecidableEq

/-- The calendar attempt of the `appointment_scheduler` branch of
`accept_task` (lines 810-824), before its exception handler: reading a
missing payload raises, then the event is created from the payload with
`.get` defaults. -/
def appointmentAttempt (env : AcceptEnv) (t : Task) : Except String String :=
  match t.payload with
  | none => Except.error "AttributeError"
  | some p =>
    let doctor := (p.doctor).getD "Doctor"
    let reason := (p.reason).getD "Follow-up"
    let start := env.defaultSlot
    let endT := start + 120
    env.addEvent ("Follow-up with " ++ doctor) start endT
      ("Reason: " ++ reason ++ "\nScheduled via CareLink AI Task Queue")

/-- The executor section of `accept_task` (lines 787-826), everything under
the outer `try` before the status assignment. The `email_reply` branch
propagates any failure; the `telegram_reply` branch does nothing; the
`appointment_scheduler` branch swallows its own failures in an inner
`except`; an unrecognized type matches no branch and does nothing. -/
def execTask (env : AcceptEnv) (t : Task) : Except String Unit :=
  if t.type == "email_reply" then
    match t.payload with
    | none => Except.error "AttributeError"
    | some p =>
      let original := p.original_email
      let sender0 := (match original with | some e => e.sender | none => "")
      let sender_email :=
        if substrB "<" sender0 then stripChar '>' ((splitChar '<' sender0).getD 1 "")
        else sender0
      let subj :=
        match p.draft_reply with
        | some r => r.subject
        | none => "Re: " ++ (match original with | some e => e.subject | none => "None")
      let body := match p.draft_reply with | some r => r.body | none => ""
      match env.sendEmail [sender_email] subj body with
      | Except.error e => Except.error e
      | Except.ok _ =>
        match env.markRead p.email_id with
        | Except.error e => Except.error e
        | Except.ok _ => Except.ok ()
  else if t.type == "telegram_reply" then Except.ok ()
  else if t.type == "appointment_scheduler" then
    match appointmentAttempt env t with
    | Except.error _ => Except.ok ()
    | Except.ok _ => Except.ok ()
  else Except.ok ()

/-- In-place status mutation of the first task with the given id, the
effect of `task.status = ...` on the object found by
`next((t for t in TASKS if t.id == task_id), None)`. -/
def setStatusFirst : List Task → String → String → List Task
  | [], _, _ => []
  | t :: ts, tid, st =>
    if t.id == tid then { t with status := st } :: ts
    else t :: setStatusFirst ts tid st

/-- The handler `accept_task` (lines 780-831): 404 when the id is unknown; otherwise
run the executor, and on success set the status to `completed`; an
executor exception is reported as a 500 with the state untouched. -/
def accept_task (env : AcceptEnv) (s : St) (task_id : String) : ApiResult × St :=
  match s.tasks.find? (fun t => t.id == task_id) with
  | none => (ApiResult.notFound, s)
  | some t =>
    match execTask env t with
    | Except.error e => (ApiResult.serverError e, s)
    | Except.ok _ =>
      (ApiResult.success, { s with tasks := setStatusFirst s.tasks task_id "completed" })

/-- The handler `dismiss_task` (lines 833-841): 404 when the id is unknown; otherwise
set the status to `dismissed`. -/
def dismiss_task (s : St) (task_id : String) : ApiResult × St :=
  match s.tasks.find? (fun t => t.id == task_id) with
  | none => (ApiResult.notFound, s)
  | some _ =>
    (ApiResult.success, { s with tasks := setStatusFirst s.tasks task_id "dismissed" })

/-- The source-item identifiers recorded in the task store: the
`email_id` payload entries (each `email_reply` task stores the Gmail id it
came from; no other creation site sets the field). -/
def sourceIds (tasks : List Task) : List String :=
  tasks.filterMap (fun t => (t.payload).bind Payload.email_id)

/-- Ledger soundness of a state: every source id recorded in the store is
in the ledger, and no two tasks share one. -/
def LedgerInv (s : St) : Prop :=
  (∀ m ∈ sourceIds s.tasks, m ∈ s.processed) ∧ (sourceIds s.tasks).Nodup

def okEnv : AcceptEnv :=
  { sendEmail := fun _ _ _ => Except.ok (), markRead := fun _ => Except.ok true,
    addEvent := fun _ _ _ _ => Except.ok "link", defaultSlot := 0 }

def failSendEnv : AcceptEnv :=
  { okEnv with sendEmail := fun _ _ _ => Except.error "SMTPException" }

def failCalEnv : AcceptEnv :=
  { okEnv with addEvent := fun _ _ _ _ => Except.error "CalendarHttpError" }

def taskDismissedTg : Task :=
  { id := "t1", type := "telegram_reply", title := "Message from Bob",
    description := "Telegram: hi...", urgency := "medium", status := "dismissed",
    payload := some { Payload.empty with
      chat_id := some 5, text := some "hi", sender := some "Bob" },
    created_at := 0 }

def taskPendingEmail : Task :=
  { id := "e1", type := "email_reply", title := "Reply to Dr X",
    description := "Regarding: checkup", urgency := "high", status := "pending",
    payload := some { Payload.empty with
      email_id := some "m1",
      draft_reply := some { subject := "Re: checkup", body := "ok" },
      original_email := some { sender := "Dr X <x@y.z>", subject := "checkup", body := "please reply" } },
    created_at := 0 }

def taskPendingAppt : Task :=
  { id := "a1", type := "appointment_scheduler", title := "Book follow-up",
    description := "Follow-up", urgency := "medium", status := "pending",
    payload := some { Payload.empty with
      doctor := some "Dr X", reason := some "Follow-up" },
    created_at := 0 }

def stW : St :=
  { tasks := [taskDismissedTg, taskPendingEmail, taskPendingAppt],
    processed := [], isScanning := false, counter := 0 }

def envG : Env :=
  { classDefTime := 0, uuid := fun n => toString n,
    listUnread := ["m1"],
    getEmailById := fun m =>
      if m == "m1" then some { sender := "Dr X <x@y.z>", subject := "checkup", body := "please reply" }
      else none,
    analyzeIntent := fun _ => { intent := "question", urgency := "high", requires_reply := true, reasoning := "" },
    extractScheduling := fun _ => { has_proposal := false, datetime_iso := none, duration_minutes := none },
    parseIso := fun _ => none, formatTime := fun _ => "", isFree := fun _ _ => true,
    generateReply := fun _ _ _ _ => { subject := "Re: checkup", body := "ok" },
    telegramUpdates :=
      [{ update_id := 7, message := none },
       { update_id := 8, message := some { chat_id := 5, text := some "hello", first_name := some "Bob" } }] }

def emailNoise : Email :=
  { sender := "noreply@example.com", subject := "Weekly Newsletter", body := "hi" }

def envA : Env :=
  { envG with getEmailById := fun m => if m == "m1" then some emailNoise else none }

def qUnscoped : TaskQuery :=
  { patient_name := none, doctor_emails := some "", doctor_names := none,
    contact_emails := some "care@x.com" }

theorem processEmailItem_isScanning (env : Env) (s : St) (m : String) :
    (processEmailItem env s m).isScanning = s.isScanning := by
  unfold processEmailItem
  dsimp only
  repeat' split <;> try rfl

theorem processTgItem_isScanning (env : Env) (s : St) (u : TgUpdate) :
    (processTgItem env s u).isScanning = s.isScanning := by
  unfold processTgItem
  dsimp only
  repeat' split <;> try rfl

theorem processEmailItem_mem (env : Env) (s : St) (m a : String) (h : a ∈ s.processed) :
    a ∈ (processEmailItem env s m).processed := by
  unfold processEmailItem
  dsimp only
  repeat' split
  all_goals first | exact h | exact List.mem_cons_of_mem _ h

theorem processEmailItem_skip (env : Env) (s : St) (m : String)
    (h : m ∈ s.processed ∨ env.getEmailById m = none) :
    processEmailItem env s m = s := by
  unfold processEmailItem
  rcases h with h | h
  · rw [if_pos h]
  · split
    · rfl
    · rw [h]

theorem processTgItem_mem (env : Env) (s : St) (u : TgUpdate) (a : String)
    (h : a ∈ s.processed) : a ∈ (processTgItem env s u).processed := by
  unfold processTgItem
  dsimp only
  repeat' split
  all_goals first | exact h | exact List.mem_cons_of_mem _ h

theorem processTgItem_skip (env : Env) (s : St) (u : TgUpdate)
    (h : ("tg_" ++ toString u.update_id) ∈ s.processed ∨ u.message = none) :
    processTgItem env s u = s := by
  unfold processTgItem
  dsimp only
  by_cases hk : ("tg_" ++ toString u.update_id) ∈ s.processed
  · rw [if_pos hk]
  · rcases h with h | h
    · exact absurd h hk
    · rw [if_neg hk, h]

theorem processEmailItem_covers (env : Env) (s : St) (m : String) :
    m ∈ (processEmailItem env s m).processed ∨ env.getEmailById m = none := by
  unfold processEmailItem
  dsimp only
  by_cases h : m ∈ s.processed
  · left; rw [if_pos h]; exact h
  · rw [if_neg h]
    split
    · right; assumption
    · left
      repeat' split
      all_goals exact List.mem_cons_self _ _

theorem processTgItem_covers (env : Env) (s : St) (u : TgUpdate) :
    ("tg_" ++ toString u.update_id) ∈ (processTgItem env s u).processed ∨ u.message = none := by
  unfold processTgItem
  dsimp only
  by_cases h : ("tg_" ++ toString u.update_id) ∈ s.processed
  · left; rw [if_pos h]; exact h
  · rw [if_neg h]
    split
    · right; assumption
    · left; exact List.mem_cons_self _ _

theorem processEmailItem_processed_sub (env : Env) (s : St) (m a : String)
    (h : a ∈ (processEmailItem env s m).processed) : a ∈ s.processed ∨ a = m := by
  unfold processEmailItem at h
  dsimp only at h
  repeat' split at h
  all_goals
    first
      | exact Or.inl h
      | (rcases List.mem_cons.mp h with h1 | h1
         · exact Or.inr h1
         · exact Or.inl h1)

theorem processTgItem_processed_sub (env : Env) (s : St) (u : TgUpdate) (a : String)
    (h : a ∈ (processTgItem env s u).processed) :
    a ∈ s.processed ∨ (a = "tg_" ++ toString u.update_id ∧ u.message ≠ none) := by
  unfold processTgItem at h
  dsimp only at h
  by_cases hk : ("tg_" ++ toString u.update_id) ∈ s.processed
  · rw [if_pos hk] at h; exact Or.inl h
  · rw [if_neg hk] at h
    split at h
    · exact Or.inl h
    · rcases List.mem_cons.mp h with h1 | h1
      · rename_i msg heq
        exact Or.inr ⟨h1, by simp [heq]⟩
      · exact Or.inl h1

theorem foldl_isScanning {β : Type} (f : St → β → St)
    (hf : ∀ s b, (f s b).isScanning = s.isScanning) :
    ∀ (l : List β) (s : St), (l.foldl f s).isScanning = s.isScanning := by
  intro l
  induction l with
  | nil => intro s; rfl
  | cons b t ih => intro s; rw [List.foldl_cons, ih, hf]

theorem foldl_mem_processed {β : Type} (f : St → β → St)
    (hf : ∀ s b a, a ∈ s.processed → a ∈ (f s b).processed) :
    ∀ (l : List β) (s : St) (a : String), a ∈ s.processed → a ∈ (l.foldl f s).processed := by
  intro l
  induction l with
  | nil => intro s a h; exact h
  | cons b t ih => intro s a h; rw [List.foldl_cons]; exact ih _ a (hf s b a h)

theorem foldl_fixed {β : Type} (f : St → β → St) (l : List β) (s : St)
    (h : ∀ b ∈ l, f s b = s) : l.foldl f s = s := by
  induction l with
  | nil => rfl
  | cons b t ih =>
    rw [List.foldl_cons, h b (List.mem_cons_self b t)]
    exact ih (fun x hx => h x (List.mem_cons_of_mem _ hx))

theorem processEmails_isScanning (env : Env) (s : St) :
    (processEmails env s).isScanning = s.isScanning :=
  foldl_isScanning _ (fun s b => processEmailItem_isScanning env s b) _ s

theorem processTelegram_isScanning (env : Env) (s : St) :
    (processTelegram env s).isScanning = s.isScanning :=
  foldl_isScanning _ (fun s b => processTgItem_isScanning env s b) _ s

theorem processEmails_mem (env : Env) (s : St) (a : String) (h : a ∈ s.processed) :
    a ∈ (processEmails env s).processed :=
  foldl_mem_processed _ (fun s b a => processEmailItem_mem env s b a) _ s a h

theorem processTelegram_mem (env : Env) (s : St) (a : String) (h : a ∈ s.processed) :
    a ∈ (processTelegram env s).processed :=
  foldl_mem_processed _ (fun s b a => processTgItem_mem env s b a) _ s a h

theorem processEmails_covers (env : Env) (s : St) :
    ∀ m ∈ env.listUnread, m ∈ (processEmails env s).processed ∨ env.getEmailById m = none := by
  unfold processEmails
  generalize env.listUnread = l
  induction l generalizing s with
  | nil => intro m hm; cases hm
  | cons b t ih =>
    intro m hm
    rw [List.foldl_cons]
    rcases List.mem_cons.mp hm with rfl | hm2
    · rcases processEmailItem_covers env s m with hc | hc
      · left
        exact foldl_mem_processed _ (fun s b a => processEmailItem_mem env s b a) t _ _ hc
      · right; exact hc
    · exact ih _ m hm2

theorem processTelegram_covers (env : Env) (s : St) :
    ∀ u ∈ env.telegramUpdates,
      ("tg_" ++ toString u.update_id) ∈ (processTelegram env s).processed ∨ u.message = none := by
  unfold processTelegram
  generalize env.telegramUpdates = l
  induction l generalizing s with
  | nil => intro u hu; cases hu
  | cons b t ih =>
    intro u hu
    rw [List.foldl_cons]
    rcases List.mem_cons.mp hu with rfl | hu2
    · rcases processTgItem_covers env s u with hc | hc
      · left
        exact foldl_mem_processed _ (fun s b a => processTgItem_mem env s b a) t _ _ hc
      · right; exact hc
    · exact ih _ u hu2

theorem processEmails_fixed (env : Env) (s : St)
    (h : ∀ m ∈ env.listUnread, m ∈ s.processed ∨ env.getEmailById m = none) :
    processEmails env s = s :=
  foldl_fixed _ _ _ (fun b hb => processEmailItem_skip env s b (h b hb))

theorem processTelegram_fixed (env : Env) (s : St)
    (h : ∀ u ∈ env.telegramUpdates,
      ("tg_" ++ toString u.update_id) ∈ s.processed ∨ u.message = none) :
    processTelegram env s = s :=
  foldl_fixed _ _ _ (fun b hb => processTgItem_skip env s b (h b hb))

theorem processEmails_processed_sub (env : Env) (s : St) (a : String)
    (h : a ∈ (processEmails env s).processed) : a ∈ s.processed ∨ a ∈ env.listUnread := by
  unfold processEmails at h
  revert h
  generalize env.listUnread = l
  induction l generalizing s with
  | nil => intro h; exact Or.inl h
  | cons b t ih =>
    intro h
    rw [List.foldl_cons] at h
    rcases ih _ h with h1 | h1
    · rcases processEmailItem_processed_sub env s b a h1 with h2 | h2
      · exact Or.inl h2
      · exact Or.inr (h2 ▸ List.mem_cons_self b t)
    · exact Or.inr (List.mem_cons_of_mem _ h1)

theorem processTelegram_processed_sub (env : Env) (s : St) (a : String)
    (h : a ∈ (processTelegram env s).processed) :
    a ∈ s.processed ∨
      ∃ u ∈ env.telegramUpdates, a = "tg_" ++ toString u.update_id ∧ u.message ≠ none := by
  unfold processTelegram at h
  revert h
  generalize env.telegramUpdates = l
  induction l generalizing s with
  | nil => intro h; exact Or.inl h
  | cons b t ih =>
    intro h
    rw [List.foldl_cons] at h
    rcases ih _ h with h1 | h1
    · rcases processTgItem_processed_sub env s b a h1 with h2 | h2
      · exact Or.inl h2
      · exact Or.inr ⟨b, List.mem_cons_self b t, h2⟩
    · rcases h1 with ⟨u, hu, h2⟩
      exact Or.inr ⟨u, List.mem_cons_of_mem _ hu, h2⟩

theorem processEmailItem_cases (env : Env) (s : St) (m : String) :
    processEmailItem env s m = s
    ∨ (m ∉ s.processed ∧ processEmailItem env s m = { s with processed := m :: s.processed })
    ∨ (m ∉ s.processed ∧ ∃ t, (t.payload).bind Payload.email_id = some m ∧
        processEmailItem env s m =
          { s with tasks := s.tasks ++ [t], processed := m :: s.processed,
                   counter := s.counter + 1 }) := by
  unfold processEmailItem
  dsimp only
  by_cases h1 : m ∈ s.processed
  · rw [if_pos h1]; exact Or.inl rfl
  · rw [if_neg h1]
    split
    · exact Or.inl rfl
    · repeat' split
      all_goals
        first
          | exact Or.inr (Or.inl ⟨h1, rfl⟩)
          | (refine Or.inr (Or.inr ⟨h1, _, ?_, rfl⟩); rfl)

theorem processTgItem_cases (env : Env) (s : St) (u : TgUpdate) :
    processTgItem env s u = s
    ∨ (("tg_" ++ toString u.update_id) ∉ s.processed ∧ ∃ t,
        (t.payload).bind Payload.email_id = none ∧
        processTgItem env s u =
          { s with tasks := s.tasks ++ [t],
                   processed := ("tg_" ++ toString u.update_id) :: s.processed,
                   counter := s.counter + 1 }) := by
  unfold processTgItem
  dsimp only
  by_cases h1 : ("tg_" ++ toString u.update_id) ∈ s.processed
  · rw [if_pos h1]; exact Or.inl rfl
  · rw [if_neg h1]
    split
    · exact Or.inl rfl
    · refine Or.inr ⟨h1, _, ?_, rfl⟩; rfl

theorem sourceIds_append_one (ts : List Task) (t : Task) :
    sourceIds (ts ++ [t]) = sourceIds ts ++ ((t.payload).bind Payload.email_id).toList := by
  cases ht : (t.payload).bind Payload.email_id <;>
    simp [sourceIds, List.filterMap_append, List.filterMap_cons, ht]

theorem processEmailItem_inv (env : Env) (s : St) (m : String) (h : LedgerInv s) :
    LedgerInv (processEmailItem env s m) := by
  rcases processEmailItem_cases env s m with hc | ⟨hm, hc⟩ | ⟨hm, t, ht, hc⟩
  · rw [hc]; exact h
  · rw [hc]
    exact ⟨fun x hx => List.mem_cons_of_mem _ (h.1 x hx), h.2⟩
  · rw [hc]
    have hnotin : m ∉ sourceIds s.tasks := fun hc2 => hm (h.1 m hc2)
    refine ⟨?_, ?_⟩
    · intro x hx
      dsimp only at hx ⊢
      rw [sourceIds_append_one, ht] at hx
      rcases List.mem_append.mp hx with h2 | h2
      · exact List.mem_cons_of_mem _ (h.1 x h2)
      · have h3 : x = m := by simpa using h2
        rw [h3]
        exact List.mem_cons_self _ _
    · dsimp only
      rw [sourceIds_append_one, ht]
      refine List.Nodup.append h.2 ?_ ?_
      · simp
      · intro x hx hx2
        have h3 : x = m := by simpa using hx2
        rw [h3] at hx
        exact hnotin hx

theorem processTgItem_inv (env : Env) (s : St) (u : TgUpdate) (h : LedgerInv s) :
    LedgerInv (processTgItem env s u) := by
  rcases processTgItem_cases env s u with hc | ⟨hk, t, ht, hc⟩
  · rw [hc]; exact h
  · rw [hc]
    refine ⟨?_, ?_⟩
    · intro x hx
      dsimp only at hx ⊢
      rw [sourceIds_append_one, ht] at hx
      rw [Option.toList_none, List.append_nil] at hx
      exact List.mem_cons_of_mem _ (h.1 x hx)
    · dsimp only
      rw [sourceIds_append_one, ht]
      rw [Option.toList_none, List.append_nil]
      exact h.2

theorem processEmails_inv (env : Env) (s : St) (h : LedgerInv s) :
    LedgerInv (processEmails env s) := by
  unfold processEmails
  generalize env.listUnread = l
  induction l generalizing s with
  | nil => exact h
  | cons b t ih =>
    rw [List.foldl_cons]
    exact ih _ (processEmailItem_inv env s b h)

theorem processTelegram_inv (env : Env) (s : St) (h : LedgerInv s) :
    LedgerInv (processTelegram env s) := by
  unfold processTelegram
  generalize env.telegramUpdates = l
  induction l generalizing s with
  | nil => exact h
  | cons b t ih =>
    rw [List.foldl_cons]
    exact ih _ (processTgItem_inv env s b h)

theorem withFlag_collapse (r : St) (hr : r.isScanning = false) :
    ({ { r with isScanning := true } with isScanning := false } : St) = r := by
  cases r
  simp_all

theorem generate_unfold (env : Env) (s : St) (hs : s.isScanning = false) :
    generate_tasks_from_sources env s =
      { processTelegram env (processEmails env { s with isScanning := true }) with
          isScanning := false } := by
  unfold generate_tasks_from_sources
  rw [hs]
  rfl

theorem generate_isScanning_false (env : Env) (s : St) (hs : s.isScanning = false) :
    (generate_tasks_from_sources env s).isScanning = false := by
  unfold generate_tasks_from_sources
  rw [hs]
  rfl

theorem generate_skip (env : Env) (s : St) (hs : s.isScanning = true) :
    generate_tasks_from_sources env s = s := by
  unfold generate_tasks_from_sources
  rw [hs]
  rfl

theorem generate_processed (env : Env) (s : St) (hs : s.isScanning = false) :
    (generate_tasks_from_sources env s).processed =
      (processTelegram env (processEmails env { s with isScanning := true })).processed := by
  rw [generate_unfold env s hs]

theorem generate_covers_email (env : Env) (s : St) (hs : s.isScanning = false) :
    ∀ m ∈ env.listUnread,
      m ∈ (generate_tasks_from_sources env s).processed ∨ env.getEmailById m = none := by
  intro m hm
  rw [generate_processed env s hs]
  rcases processEmails_covers env { s with isScanning := true } m hm with h | h
  · exact Or.inl (processTelegram_mem env _ m h)
  · exact Or.inr h

theorem generate_covers_tg (env : Env) (s : St) (hs : s.isScanning = false) :
    ∀ u ∈ env.telegramUpdates,
      ("tg_" ++ toString u.update_id) ∈ (generate_tasks_from_sources env s).processed
        ∨ u.message = none := by
  intro u hu
  rw [generate_processed env s hs]
  exact processTelegram_covers env _ u hu

theorem generate_idem (env : Env) (s : St) (hs : s.isScanning = false) :
    generate_tasks_from_sources env (generate_tasks_from_sources env s)
      = generate_tasks_from_sources env s := by
  have hR : (generate_tasks_from_sources env s).isScanning = false :=
    generate_isScanning_false env s hs
  have hE := generate_covers_email env s hs
  have hT := generate_covers_tg env s hs
  rw [generate_unfold env _ hR]
  dsimp only
  rw [processEmails_fixed env
    { generate_tasks_from_sources env s with isScanning := true } (fun m hm => hE m hm)]
  rw [processTelegram_fixed env
    { generate_tasks_from_sources env s with isScanning := true } (fun u hu => hT u hu)]
  exact withFlag_collapse _ hR

/-- Claim C1 counterexample: the store holds a task already in status `dismissed`;
`accept_task` on it reports success and moves it to `completed`, so a
dismissed task does become completed. -/
theorem accept_completes_a_dismissed_task :
    stW.tasks.map Task.status = ["dismissed", "pending", "pending"]
    ∧ (accept_task okEnv stW "t1").1 = ApiResult.success
    ∧ ((accept_task okEnv stW "t1").2.tasks.map Task.status)
        = ["completed", "pending", "pending"] := by
  refine ⟨by decide, by decide, by decide⟩

/-- Claim C1 (amended): `accept_task` and `dismiss_task` consult only existence of
the id, never the current status: an unknown id reports NotFound; any
found task is moved to `dismissed` by dismiss, and to `completed` by
accept whenever its executor succeeds, whatever the prior status. -/
theorem accept_dismiss_ignore_prior_status :
    (∀ env s tid, s.tasks.find? (fun x => x.id == tid) = none →
        accept_task env s tid = (ApiResult.notFound, s)
        ∧ dismiss_task s tid = (ApiResult.notFound, s))
    ∧ (∀ s tid t, s.tasks.find? (fun x => x.id == tid) = some t →
        dismiss_task s tid
          = (ApiResult.success, { s with tasks := setStatusFirst s.tasks tid "dismissed" }))
    ∧ (∀ env s tid t, s.tasks.find? (fun x => x.id == tid) = some t →
        execTask env t = Except.ok () →
        accept_task env s tid
          = (ApiResult.success, { s with tasks := setStatusFirst s.tasks tid "completed" })) := by
  refine ⟨?_, ?_, ?_⟩
  · intro env s tid h
    unfold accept_task dismiss_task
    rw [h]
    exact ⟨rfl, rfl⟩
  · intro s tid t h
    unfold dismiss_task
    rw [h]
  · intro env s tid t h hex
    unfold accept_task
    rw [h]
    dsimp only
    rw [hex]

theorem accept_dismiss_ignore_prior_status_witness :
    accept_task okEnv stW "t1"
      = (ApiResult.success, { stW with tasks := setStatusFirst stW.tasks "t1" "completed" })
    ∧ dismiss_task stW "nope" = (ApiResult.notFound, stW) :=
  ⟨accept_dismiss_ignore_prior_status.2.2 okEnv stW "t1" taskDismissedTg (by decide) rfl,
   (accept_dismiss_ignore_prior_status.1 okEnv stW "nope" (by decide)).2⟩

/-- Claim C2: when none of patient_name, doctor_emails, doctor_names is supplied
(absent or empty), `get_tasks` returns the empty list, whatever the store
holds and whatever `contact_emails` says. -/
theorem unscoped_task_query_returns_empty :
    ∀ (q : TaskQuery) (tasks : List Task), truthyOpt q.patient_name = false →
      truthyOpt q.doctor_emails = false → truthyOpt q.doctor_names = false →
      get_tasks q tasks = [] := by
  intro q tasks h1 h2 h3
  unfold get_tasks
  dsimp only
  rw [h1, h2, h3]
  rfl

theorem unscoped_task_query_returns_empty_witness :
    get_tasks qUnscoped [taskPendingEmail] = [] :=
  unscoped_task_query_returns_empty qUnscoped [taskPendingEmail] rfl rfl rfl

/-- Claim C3: when the email adapter raises on send, accepting a pending
email_reply task reports a server error and leaves the state, hence the
task status, untouched. -/
theorem email_send_failure_leaves_task_pending :
    ∀ (env : AcceptEnv) (s : St) (tid : String) (t : Task) (emsg : String),
      s.tasks.find? (fun x => x.id == tid) = some t →
      t.type = "email_reply" → t.status = "pending" →
      (∀ dst subj body, env.sendEmail dst subj body = Except.error emsg) →
      ∃ e, accept_task env s tid = (ApiResult.serverError e, s) := by
  intro env s tid t emsg hfind hty hst hsend
  unfold accept_task
  rw [hfind]
  dsimp only
  have hexec : ∃ e, execTask env t = Except.error e := by
    unfold execTask
    rw [hty]
    cases hp : t.payload with
    | none => exact ⟨"AttributeError", by simp⟩
    | some p => exact ⟨emsg, by simp [hsend]⟩
  rcases hexec with ⟨e, he⟩
  rw [he]
  exact ⟨e, rfl⟩

theorem email_send_failure_leaves_task_pending_witness :
    ∃ e, accept_task failSendEnv stW "e1" = (ApiResult.serverError e, stW) :=
  email_send_failure_leaves_task_pending failSendEnv stW "e1" taskPendingEmail
    "SMTPException" rfl rfl rfl (fun _ _ _ => rfl)

/-- Claim C7: accepting a pending appointment_scheduler task always reports
success and sets the status to completed, for every calendar adapter,
including one whose add_event raises: the executor swallows the failure. -/
theorem appointment_accept_tolerates_calendar_failure :
    ∀ (env : AcceptEnv) (s : St) (tid : String) (t : Task),
      s.tasks.find? (fun x => x.id == tid) = some t →
      t.type = "appointment_scheduler" → t.status = "pending" →
      accept_task env s tid
        = (ApiResult.success, { s with tasks := setStatusFirst s.tasks tid "completed" }) := by
  intro env s tid t hfind hty hst
  unfold accept_task
  rw [hfind]
  dsimp only
  have hexec : execTask env t = Except.ok () := by
    unfold execTask
    rw [hty]
    repeat' split
    all_goals first | rfl | simp_all
  rw [hexec]

theorem appointment_accept_tolerates_calendar_failure_witness :
    accept_task failCalEnv stW "a1"
      = (ApiResult.success, { stW with tasks := setStatusFirst stW.tasks "a1" "completed" }) :=
  appointment_accept_tolerates_calendar_failure failCalEnv stW "a1" taskPendingAppt rfl rfl rfl

/-- Claim C6: the relevance verdict of a task is unchanged under any overwrite of
the drafted reply in its payload; listing tasks returns the module state
unchanged; and the returned list is a sublist of the stored tasks, each
element returned exactly as stored. -/
theorem relevance_filter_pure_and_draft_blind :
    (∀ (q : TaskQuery) (t : Task) (r : Option Reply),
        is_relevant q (setDraft r t) = is_relevant q t)
    ∧ (∀ (q : TaskQuery) (s : St), (listTasksState q s).2 = s)
    ∧ (∀ (q : TaskQuery) (tasks : List Task), (get_tasks q tasks).Sublist tasks) := by
  refine ⟨?_, ?_, ?_⟩
  · intro q t r
    obtain ⟨tid, ty, title, desc, urg, st, pay, ca⟩ := t
    cases pay with
    | none => rfl
    | some p =>
      obtain ⟨pe, pd, po, pc, pt, ps, pdoc, pr⟩ := p
      rfl
  · intro q s
    rfl
  · intro q tasks
    unfold get_tasks
    dsimp only
    split
    · exact List.nil_sublist _
    · exact (List.filter_sublist _).trans (List.filter_sublist _)

/-- Claim C5: an email whose sender contains an automated-sender pattern, or
whose combined subject and body contains a noise phrase, is marked
processed and produces no task; the conclusion is one fixed state for
every environment, so no classifier output can influence it. -/
theorem prefilter_blocks_automated_and_noise :
    ∀ (env : Env) (s : St) (msg_id : String) (email : Email),
      env.getEmailById msg_id = some email →
      ((automated_senders.any (fun ns => substrB ns (strLower email.sender))) = true
        ∨ (spam_keywords.any (fun sp =>
            substrB sp (strLower (email.subject ++ " " ++ email.body)))) = true) →
      processEmailItem env s msg_id =
        { s with processed :=
            if msg_id ∈ s.processed then s.processed else msg_id :: s.processed } := by
  intro env s msg_id email hget hfilter
  by_cases h1 : msg_id ∈ s.processed
  · rw [if_pos h1]
    unfold processEmailItem
    rw [if_pos h1]
  · rw [if_neg h1]
    unfold processEmailItem
    dsimp only
    rw [if_neg h1, hget]
    dsimp only
    by_cases h2 : (automated_senders.any fun ns => substrB ns (strLower email.sender)) = true
    · rw [if_pos h2]
    · rw [if_neg h2]
      rcases hfilter with h3 | h3
      · exact absurd h3 h2
      · rw [if_pos h3]

theorem prefilter_blocks_automated_and_noise_witness :
    processEmailItem envA initState "m1" =
      { initState with processed :=
          if "m1" ∈ initState.processed then initState.processed
          else "m1" :: initState.processed } :=
  prefilter_blocks_automated_and_noise envA initState "m1" emailNoise rfl
    (Or.inl (by decide))

/-- Claim C8: a scan invocation that observes the in-flight flag returns the
state unchanged, for every environment, so no adapter is consulted; the
scan body preserves the flag it was entered with, a non-skipped run
executes on the flag-set state, and the flag is clear again on return. -/
theorem scan_guard_no_reentry :
    (∀ (env : Env) (s : St), s.isScanning = true → generate_tasks_from_sources env s = s)
    ∧ (∀ (env : Env) (s : St), (processEmails env s).isScanning = s.isScanning
        ∧ (processTelegram env s).isScanning = s.isScanning)
    ∧ (∀ (env : Env) (s : St), s.isScanning = false →
        generate_tasks_from_sources env s =
          { processTelegram env (processEmails env { s with isScanning := true }) with
              isScanning := false }
        ∧ (generate_tasks_from_sources env s).isScanning = false) :=
  ⟨fun env s h => generate_skip env s h,
   fun env s => ⟨processEmails_isScanning env s, processTelegram_isScanning env s⟩,
   fun env s h => ⟨generate_unfold env s h, generate_isScanning_false env s h⟩⟩

theorem scan_guard_no_reentry_witness :
    generate_tasks_from_sources envG { initState with isScanning := true }
        = { initState with isScanning := true }
    ∧ (generate_tasks_from_sources envG initState).isScanning = false :=
  ⟨scan_guard_no_reentry.1 envG { initState with isScanning := true } rfl,
   (scan_guard_no_reentry.2.2 envG initState rfl).2⟩

/-- Claim C4 counterexample: a scan completes on a batch holding Telegram update
7, which has no message field; afterwards the namespaced id tg_7 is not in
the ledger, refuting that every item identifier of a completed run is
already recorded. -/
theorem ledger_gap_after_completed_run :
    envG.telegramUpdates.map TgUpdate.update_id = [7, 8]
    ∧ (generate_tasks_from_sources envG initState).isScanning = false
    ∧ "tg_7" ∉ (generate_tasks_from_sources envG initState).processed := by
  refine ⟨by decide, by decide, by decide⟩

/-- Claim C4 (amended): a second scan with the same adapter answers changes nothing
(zero tasks appended); every fully-retrieved item id (resolvable email,
message-bearing update) is in the ledger after a completed scan; ledger
soundness — each recorded email source id is in the ledger and no two
tasks share one — is preserved from the empty start; and a recorded key
makes reprocessing of an update a no-op. -/
theorem generator_idempotent_and_deduplicating :
    (∀ (env : Env) (s : St), s.isScanning = false →
        generate_tasks_from_sources env (generate_tasks_from_sources env s)
          = generate_tasks_from_sources env s)
    ∧ (∀ (env : Env) (s : St), s.isScanning = false →
        (∀ m ∈ env.listUnread, (env.getEmailById m).isSome = true →
            m ∈ (generate_tasks_from_sources env s).processed)
        ∧ (∀ u ∈ env.telegramUpdates, u.message.isSome = true →
            ("tg_" ++ toString u.update_id) ∈ (generate_tasks_from_sources env s).processed))
    ∧ (∀ (env : Env) (s : St), LedgerInv s → LedgerInv (generate_tasks_from_sources env s))
    ∧ LedgerInv initState
    ∧ (∀ (env : Env) (s : St) (u : TgUpdate),
        ("tg_" ++ toString u.update_id) ∈ s.processed → processTgItem env s u = s) := by
  refine ⟨generate_idem, ?_, ?_, ?_, ?_⟩
  · intro env s hs
    refine ⟨?_, ?_⟩
    · intro m hm hsome
      rcases generate_covers_email env s hs m hm with h | h
      · exact h
      · rw [h] at hsome
        cases hsome
    · intro u hu hsome
      rcases generate_covers_tg env s hs u hu with h | h
      · exact h
      · rw [h] at hsome
        cases hsome
  · intro env s h
    by_cases hs : s.isScanning = true
    · rw [generate_skip env s hs]
      exact h
    · have hs' : s.isScanning = false := by
        revert hs
        cases s.isScanning <;> simp
      rw [generate_unfold env s hs']
      have h1 : LedgerInv { s with isScanning := true } := h
      exact processTelegram_inv env _ (processEmails_inv env _ h1)
  · exact ⟨by intro x hx; simp [initState, sourceIds] at hx, by simp [initState, sourceIds]⟩
  · intro env s u h
    exact processTgItem_skip env s u (Or.inl h)

theorem generator_idempotent_and_deduplicating_witness :
    generate_tasks_from_sources envG (generate_tasks_from_sources envG initState)
        = generate_tasks_from_sources envG initState
    ∧ ("tg_" ++ toString (8 : Nat)) ∈ (generate_tasks_from_sources envG initState).processed :=
  ⟨generator_idempotent_and_deduplicating.1 envG initState rfl,
   (generator_idempotent_and_deduplicating.2.1 envG initState rfl).2
     { update_id := 8, message := some { chat_id := 5, text := some "hello", first_name := some "Bob" } }
     (by decide) (by decide)⟩

/-- Claim C9: the Task model's created_at default is evaluated once at class
definition; two tasks created at distinct instants 5 and 9 both carry the
class-definition value 0, so created_at does not reflect the creation
instant. -/
theorem created_at_shared_class_default :
    (Task.makeAt 0 5 "a" "email_reply" "T" "D" "low" none).created_at
      = (Task.makeAt 0 9 "b" "email_reply" "T" "D" "low" none).created_at
    ∧ (Task.makeAt 0 5 "a" "email_reply" "T" "D" "low" none).created_at = 0
    ∧ (5 : Nat) ≠ 9
    ∧ (∀ (c n : Nat) (i ty ti d ur : String) (p : Option Payload),
        (Task.makeAt c n i ty ti d ur p).created_at = c) :=
  ⟨rfl, rfl, by decide, fun _ _ _ _ _ _ _ _ => rfl⟩

/-- Claim C10: a Telegram update without a message field is left alone — no task,
no ledger entry — and its namespaced key stays out of the ledger across a
whole scan whose batch only ever pairs that key with message-less updates,
so later scans will examine it again. -/
theorem messageless_update_unrecorded :
    (∀ (env : Env) (s : St) (u : TgUpdate), u.message = none → processTgItem env s u = s)
    ∧ (∀ (env : Env) (s : St) (k : String), k ∉ s.processed →
        (∀ m ∈ env.listUnread, m ≠ k) →
        (∀ u ∈ env.telegramUpdates, ("tg_" ++ toString u.update_id) = k → u.message = none) →
        k ∉ (generate_tasks_from_sources env s).processed) := by
  refine ⟨?_, ?_⟩
  · intro env s u h
    exact processTgItem_skip env s u (Or.inr h)
  · intro env s k hk hemail htg hmem
    by_cases hs : s.isScanning = true
    · rw [generate_skip env s hs] at hmem
      exact hk hmem
    · have hs' : s.isScanning = false := by
        revert hs
        cases s.isScanning <;> simp
      rw [generate_processed env s hs'] at hmem
      rcases processTelegram_processed_sub env _ k hmem with h1 | ⟨u, hu, heq, hmsg⟩
      · rcases processEmails_processed_sub env _ k h1 with h2 | h2
        · exact hk h2
        · exact hemail k h2 rfl
      · exact hmsg (htg u hu heq.symm)

theorem messageless_update_unrecorded_witness :
    "tg_7" ∉ (generate_tasks_from_sources envG initState).processed :=
  messageless_update_unrecorded.2 envG initState "tg_7" (by decide)
    (by intro m hm; simp [envG] at hm; subst hm; decide)
    (by
      intro u hu heq
      simp [envG] at hu
      rcases hu with rfl | rfl
      · rfl
      · exact absurd heq (by decide))

end CareLink
